import Mathlib

/-!
Shallow embedding of `mapper/emulation.py` (class `EmulatedWorld`): the
command interpreter, the navigation engine (`move`), the exit renderer
(`look` / `longExits`), the settings toggling (`toggleSetting`) and the
configuration loading (`loadConfig`).

Python dictionaries are embedded as association lists (first binding wins on
lookup, as in a dict there is at most one binding per key); textual output is
embedded as a log of emitted lines; JSON values that may live in the
configuration are embedded by the inductive `Value`, together with Python's
`==` on them (`pyEq`, under which `0 == False` holds, since `bool` is a
subclass of `int`) and Python's truthiness (`pyTruthy`).
-/

namespace Emulation

/-- A JSON-ish value as Python holds it in the configuration dictionary. -/
inductive Value where
  | vBool : Bool → Value
  | vNum : Int → Value
  | vStr : String → Value
deriving Repr, DecidableEq

/-- Python `==` between configuration values: `True == 1`, `False == 0`
(booleans are integers in Python); values of unrelated types compare unequal. -/
def pyEq : Value → Value → Bool
  | .vBool a, .vBool b => a == b
  | .vBool a, .vNum n => (if a then (1 : Int) else 0) == n
  | .vNum n, .vBool a => n == (if a then (1 : Int) else 0)
  | .vNum n, .vNum m => n == m
  | .vStr s, .vStr t => s == t
  | _, _ => false

/-- Python truthiness of a configuration value (`bool(v)`). -/
def pyTruthy : Value → Bool
  | .vBool b => b
  | .vNum n => n != 0
  | .vStr s => s != ""

/-- Python `str.isdigit` restricted to ASCII digits: non-empty and all digits. -/
def pyIsdigit (s : String) : Bool :=
  s.data ≠ [] && s.data.all Char.isDigit

/-- Python `s.startswith(p)`. -/
def pyStartsWith (s p : String) : Bool :=
  p.data.isPrefixOf s.data

/-- Python `str.capitalize`: first character uppercased, the rest lowercased. -/
def pyCapitalize (s : String) : String :=
  match s.data with
  | [] => ""
  | c :: rest => ⟨c.toUpper :: rest.map Char.toLower⟩

/-- A Python dict as an association list: lookup takes the first binding. -/
def dictGet : List (String × α) → String → Option α
  | [], _ => none
  | (k', v) :: t, k => if k = k' then some v else dictGet t k

/-- First-defined choice on options: the left value when present, else the
right one (the merge rule of two configuration layers). -/
def orOpt (a b : Option α) : Option α :=
  match a with
  | some v => some v
  | none => b

/-- `m[k] = v` on a dict: replace the binding in place if the key is present,
append it otherwise (insertion order is kept, as in a Python dict). -/
def dictSet (m : List (String × α)) (k : String) (v : α) : List (String × α) :=
  if (dictGet m k).isSome then
    m.map (fun p => if p.1 = k then (k, v) else p)
  else
    m ++ [(k, v)]

/-- Python `text.splitlines()` restricted to `\n` separators, on char lists. -/
def splitLinesAux : List Char → List Char → List (List Char)
  | [], acc => [acc.reverse]
  | c :: rest, acc =>
    if c = '\n' then acc.reverse :: splitLinesAux rest []
    else splitLinesAux rest (c :: acc)

/-- The lines `EmulatedWorld.output` actually emits for a text: the text's
lines with the blank ones (those whose `strip()` is empty) dropped.
`page(line for line in text.splitlines() if line.strip())`. -/
def emitLines (text : String) : List String :=
  ((splitLinesAux text.data []).filter (fun l => !l.all Char.isWhitespace)).map
    (fun l => ⟨l⟩)

/-- An exit of a room: destination vnum or sentinel, door name (`""` when the
door is nameless or absent), exit flags and door flags. -/
structure Exit where
  «to» : String
  door : String
  exitFlags : List String
  doorFlags : List String
deriving Repr, DecidableEq

/-- A room of the world database, with its exits as a dict direction → exit. -/
structure Room where
  vnum : String
  name : String
  desc : String
  dynamicDesc : String
  terrain : String
  note : String
  exits : List (String × Exit)
deriving Repr, DecidableEq

/-- Modelled from the spec: the fixed direction enumeration (`DIRECTIONS` of
`mapper/constants.py` is not under `src/`); the spec's §3 lists north, south,
east, west, up, down in canonical order. -/
def DIRECTIONS : List String :=
  ["north", "south", "east", "west", "up", "down"]

/-- The whole state an `EmulatedWorld` instance carries: the room database and
labels (from `World`), the configuration dict, the current room, and the log
of output lines emitted so far. -/
structure WorldState where
  rooms : List (String × Room)
  labels : List (String × String)
  config : List (String × Value)
  currentRoom : Room
  outputLog : List String
deriving Repr, DecidableEq

/-- `EmulatedWorld.output`: page the text's non-blank lines. -/
def output (w : WorldState) (text : String) : WorldState :=
  { w with outputLog := w.outputLog ++ emitLines text }

/-- `self.config.get(key, default)`. -/
def configGet (config : List (String × Value)) (key : String) (dflt : Value) : Value :=
  (dictGet config key).getD dflt

/-- Modelled from the spec: `World.sortExits` is not under `src/`; per the
spec (§3, §4.3) a room's exits are enumerated in canonical direction order. -/
def sortExits (exits : List (String × Exit)) : List (String × Exit) :=
  DIRECTIONS.filterMap (fun d => (dictGet exits d).map (fun e => (d, e)))

/-- The doors-line entry an exit contributes in `look` (lines 53-55 of
`emulation.py`): present when the exit has a door name or the `door` exit
flag, using the literal `exit` when the door is nameless. -/
def doorEntry (direction : String) (e : Exit) : Option String :=
  if e.door ≠ "" || e.exitFlags.contains "door" then
    some (direction ++ ": " ++ (if e.door ≠ "" then e.door else "exit"))
  else
    none

/-- The exits-line token for one exit in `look` (lines 52-78 of
`emulation.py`): door wrapping first (parentheses when visible, brackets when
the door has the `hidden` flag), then the `if`/`elif` chain of destination
markers. -/
def exitToken (rooms : List (String × Room)) (direction : String) (e : Exit) : String :=
  let d :=
    if e.door ≠ "" || e.exitFlags.contains "door" then
      if !e.doorFlags.contains "hidden" then "(" ++ direction ++ ")"
      else "[" ++ direction ++ "]"
    else direction
  if e.«to» = "death" then "!!" ++ d ++ "!!"
  else
    match dictGet rooms e.«to» with
    | none => "??" ++ d ++ "??"
    | some r =>
      if e.«to» = "undefined" then "??" ++ d ++ "??"
      else if r.terrain = "road" then "=" ++ d ++ "="
      else if e.exitFlags.contains "road" then "-" ++ d ++ "-"
      else d

/-- The doors list `look` builds for a room. -/
def lookDoorList (exits : List (String × Exit)) : List String :=
  (sortExits exits).filterMap (fun p => doorEntry p.1 p.2)

/-- The exit tokens `look` builds for a room, before the `None!` fallback. -/
def lookExitList (rooms : List (String × Room)) (exits : List (String × Exit)) :
    List String :=
  (sortExits exits).map (fun p => exitToken rooms p.1 p.2)

/-- The exits line `look` prints (line 81 of `emulation.py`), after the empty
list falls back to `None!`. -/
def lookExitsLine (rooms : List (String × Room)) (exits : List (String × Exit)) :
    String :=
  let l := lookExitList rooms exits
  "Exits: " ++ String.intercalate ", " (if l = [] then ["None!"] else l)

/-- `EmulatedWorld.look`: the full room render. -/
def look (w : WorldState) : WorldState :=
  let w := output w w.currentRoom.name
  let w :=
    if !pyTruthy (configGet w.config "brief" (.vBool true)) then
      output w (String.intercalate " "
        (((splitLinesAux w.currentRoom.desc.data []).map
            (fun l => (String.mk l).trim)).filter (fun l => l ≠ "")))
    else w
  let w := output w w.currentRoom.dynamicDesc
  let doorList := lookDoorList w.currentRoom.exits
  let w :=
    if doorList ≠ [] then
      output (output w "Doors:") (String.intercalate ",\n" doorList)
    else w
  let w := output w (lookExitsLine w.rooms w.currentRoom.exits)
  let w :=
    if w.currentRoom.note ≠ "" then output w ("Note: " ++ w.currentRoom.note)
    else w
  if pyTruthy (configGet w.config "show_vnum" (.vBool true)) then
    output w ("Vnum: " ++ w.currentRoom.vnum)
  else w

/-- The destination description in one line of `longExits` (lines 99-104 of
`emulation.py`): name and terrain when the destination is all digits and a
known room, `death` when it is the `death` sentinel, `undefined` otherwise. -/
def longExitDest (rooms : List (String × Room)) (dst : String) : String :=
  match dictGet rooms dst with
  | some r =>
    if pyIsdigit dst then r.name ++ ", " ++ r.terrain
    else if dst = "death" then "death"
    else "undefined"
  | none => if dst = "death" then "death" else "undefined"

/-- One line of the `exits` command (lines 95-104 of `emulation.py`). -/
def longExitLine (rooms : List (String × Room)) (direction : String) (e : Exit) :
    String :=
  let parts := [pyCapitalize direction ++ ":"]
  let parts :=
    if e.door ≠ "" || e.exitFlags.contains "door" then
      parts ++ [(if !e.doorFlags.contains "hidden" then "visible" else "hidden") ++
        " (" ++ (if e.door ≠ "" then e.door else "exit") ++ "),"]
    else parts
  String.intercalate " " (parts ++ [longExitDest rooms e.«to»])

/-- `EmulatedWorld.longExits`: the `exits` command. -/
def longExits (w : WorldState) : WorldState :=
  let w := output w "Exits:"
  if w.currentRoom.exits = [] then output w "None!"
  else
    (sortExits w.currentRoom.exits).foldl
      (fun w p => output w (longExitLine w.rooms p.1 p.2)) w

/-- The second half of `EmulatedWorld.move` (lines 119-127 of `emulation.py`):
destination handling once the token has resolved to a vnum. -/
def moveToVnum (w : WorldState) (vnum : String) : WorldState :=
  if vnum = "undefined" then output w "Undefined room in that direction!"
  else if vnum = "death" then output w "Deathtrap in that direction!"
  else
    match dictGet w.rooms vnum with
    | none =>
      output w ("Error: no rooms in the database with vnum (" ++ vnum ++ ").")
    | some room =>
      look { w with
        currentRoom := room
        config := dictSet w.config "last_vnum" (.vStr vnum) }

/-- `EmulatedWorld.move`: resolve the token (direction, label, digits) and
hand the vnum to the destination handling. -/
def move (w : WorldState) (text : String) : WorldState :=
  if DIRECTIONS.contains text then
    match dictGet w.currentRoom.exits text with
    | none => output w "Alas, you cannot go that way!"
    | some e => moveToVnum w e.«to»
  else
    match dictGet w.labels text with
    | some vnum => moveToVnum w vnum
    | none =>
      if pyIsdigit text then moveToVnum w text
      else output w ("Error: " ++ text ++ " isn't a direction, label, or vnum.")

/-- `EmulatedWorld.toggleSetting`:
`self.config[setting] = self.config.get(setting, True) == False`. -/
def toggleSetting (w : WorldState) (setting : String) : WorldState × Bool :=
  let newValue := pyEq (configGet w.config setting (.vBool true)) (.vBool false)
  ({ w with config := dictSet w.config setting (.vBool newValue) }, newValue)

/-- Python string `<`: lexicographic comparison of code points, the order
`sorted` uses on the room identifiers. -/
def pyStrLt : List Char → List Char → Bool
  | _, [] => false
  | [], _ :: _ => true
  | a :: as, b :: bs =>
    if a.toNat < b.toNat then true
    else if b.toNat < a.toNat then false
    else pyStrLt as bs

/-- The lexicographically smallest key of the room dict: `sorted(self.rooms)[0]`
(meaningful only when the dict is non-empty). -/
def smallestVnum (rooms : List (String × Room)) : String :=
  match rooms.map Prod.fst with
  | [] => ""
  | k :: ks => ks.foldl (fun a b => if pyStrLt b.data a.data then b else a) k

/-- Lines 31-35 of `emulation.py` (`EmulatedWorld.__init__` after
`loadConfig`): the vnum the startup move is called with. -/
def initialVnum (w : WorldState) : String :=
  let lastVnum := configGet w.config "last_vnum" (.vStr "0")
  match lastVnum with
  | .vStr s => if (dictGet w.rooms s).isSome then s else smallestVnum w.rooms
  | _ => smallestVnum w.rooms

/-- The tail of `EmulatedWorld.__init__`: `self.move(lastVnum)` on the chosen
startup vnum. -/
def startup (w : WorldState) : WorldState :=
  move w (initialVnum w)

/-- The command token of one input line: the leading run of non-whitespace
characters (`re.match(r"^(?P<command>\S+)...")`; the interpreter loop hands
`parseInput` stripped non-empty input, so the match succeeds). -/
def commandToken (s : String) : String :=
  ⟨s.data.takeWhile (fun c => !c.isWhitespace)⟩

/-- The candidate direction `parseInput` builds (line 164 of `emulation.py`):
`"".join(dir for dir in DIRECTIONS if dir.startswith(command))`. -/
def directionCandidate (command : String) : String :=
  String.join (DIRECTIONS.filter (fun d => pyStartsWith d command))

/-- The first branch of `EmulatedWorld.parseInput` (lines 161-166): when the
joined direction candidate is non-empty, dispatch `move` on it; `none` means
the input falls through to the later command branches. -/
def parseInputDir (w : WorldState) (userInput : String) : Option WorldState :=
  let direction := directionCandidate (commandToken userInput)
  if direction ≠ "" then some (move w direction) else none

/-- The exits-line token as the spec's §4.3 words it (claim-side definition,
to be compared with `exitToken`): door wrapping first — parentheses for a
visible door, brackets for a hidden one — then exactly one destination
marker, tried in the order death (`!!`), undefined-or-unknown (`??`),
road-terrain destination (`=`), `road` exit flag (`-`). -/
def exitTokenSpec (rooms : List (String × Room)) (direction : String) (e : Exit) :
    String :=
  let wrapped :=
    if e.door ≠ "" || e.exitFlags.contains "door" then
      if e.doorFlags.contains "hidden" then "[" ++ direction ++ "]"
      else "(" ++ direction ++ ")"
    else direction
  if e.«to» = "death" then "!!" ++ wrapped ++ "!!"
  else if e.«to» = "undefined" || (dictGet rooms e.«to»).isNone then
    "??" ++ wrapped ++ "??"
  else if (dictGet rooms e.«to»).map Room.terrain = some "road" then
    "=" ++ wrapped ++ "="
  else if e.exitFlags.contains "road" then "-" ++ wrapped ++ "-"
  else wrapped

section Fixtures

/-- A room with no exits, used as a rendering test subject. -/
def roomNoExits : Room :=
  { vnum := "1", name := "Bare cell", desc := "", dynamicDesc := "",
    terrain := "city", note := "", exits := [] }

/-- A road-terrain room, destination of the door scenarios. -/
def roomRoad : Room :=
  { vnum := "3", name := "Old road", desc := "", dynamicDesc := "",
    terrain := "road", note := "", exits := [] }

/-- A north exit with a visible unnamed door, leading to the road room. -/
def exitVisibleDoor : Exit :=
  { «to» := "3", door := "", exitFlags := ["door"], doorFlags := [] }

/-- An exit with a named door, for the doors-line entry. -/
def exitNamedDoor : Exit :=
  { «to» := "9", door := "gate", exitFlags := [], doorFlags := [] }

/-- A north exit with a hidden unnamed door, leading to the road room. -/
def exitHiddenDoor : Exit :=
  { «to» := "3", door := "", exitFlags := ["door"], doorFlags := ["hidden"] }

/-- The room holding the two door scenarios' exits. -/
def roomWithDoor : Room :=
  { vnum := "2", name := "Gatehouse", desc := "", dynamicDesc := "",
    terrain := "city", note := "", exits := [("north", exitVisibleDoor)] }

/-- A room whose north exit targets the `death` sentinel. -/
def roomDeathExit : Room :=
  { vnum := "5", name := "Cliff edge", desc := "", dynamicDesc := "",
    terrain := "field", note := "",
    exits := [("north", { «to» := "death", door := "", exitFlags := [], doorFlags := [] })] }

/-- A world positioned in the empty-exits room. -/
def worldNoExits : WorldState :=
  { rooms := [("1", roomNoExits)], labels := [], config := [],
    currentRoom := roomNoExits, outputLog := [] }

/-- A world positioned in the death-exit room. -/
def worldDeathExit : WorldState :=
  { rooms := [("5", roomDeathExit)], labels := [], config := [],
    currentRoom := roomDeathExit, outputLog := [] }

/-- Room `0`, the one the persisted `last_vnum` of `worldLabelShadow` names. -/
def roomZero : Room :=
  { vnum := "0", name := "Origin", desc := "", dynamicDesc := "",
    terrain := "city", note := "", exits := [] }

/-- Room `5` of `worldLabelShadow`, the target of its label `0`. -/
def roomFive : Room :=
  { vnum := "5", name := "Elsewhere", desc := "", dynamicDesc := "",
    terrain := "city", note := "", exits := [] }

/-- A world whose persisted `last_vnum` is `0`, with room `0` present but a
label also named `0` pointing at room `5`: the startup move goes through the
label. -/
def worldLabelShadow : WorldState :=
  { rooms := [("0", roomZero), ("5", roomFive)], labels := [("0", "5")],
    config := [("last_vnum", .vStr "0")], currentRoom := roomZero,
    outputLog := [] }

/-- A world holding a string-valued setting, for the toggle round trip. -/
def worldStrSetting : WorldState :=
  { rooms := [("1", roomNoExits)], labels := [],
    config := [("auto", .vStr "on")], currentRoom := roomNoExits,
    outputLog := [] }

/-- A world holding a numeric `0` setting, for Python's `0 == False`. -/
def worldZeroSetting : WorldState :=
  { rooms := [("1", roomNoExits)], labels := [],
    config := [("x", .vNum 0)], currentRoom := roomNoExits, outputLog := [] }

/-- A world holding a boolean setting, for the toggle round trip. -/
def worldBoolSetting : WorldState :=
  { rooms := [("1", roomNoExits)], labels := [],
    config := [("brief", .vBool false)], currentRoom := roomNoExits,
    outputLog := [] }

end Fixtures

section BasicLemmas

theorem output_currentRoom (w : WorldState) (t : String) :
    (output w t).currentRoom = w.currentRoom := rfl

theorem output_config (w : WorldState) (t : String) :
    (output w t).config = w.config := rfl

theorem output_outputLog (w : WorldState) (t : String) :
    (output w t).outputLog = w.outputLog ++ emitLines t := rfl

theorem look_currentRoom (w : WorldState) : (look w).currentRoom = w.currentRoom := by
  simp [look, output, apply_ite WorldState.currentRoom]

theorem look_config (w : WorldState) : (look w).config = w.config := by
  simp [look, output, apply_ite WorldState.config]

theorem dictGet_map_set (m : List (String × α)) (k : String) (v : α) :
    dictGet (m.map (fun p => if p.1 = k then (k, v) else p)) k =
      if (dictGet m k).isSome then some v else none := by
  induction m with
  | nil => simp [dictGet]
  | cons p t ih =>
    obtain ⟨a, b⟩ := p
    simp only [List.map_cons]
    by_cases h : a = k
    · rw [show (if (a, b).1 = k then (k, v) else (a, b)) = (k, v) from if_pos h]
      simp [dictGet, h]
    · rw [show (if (a, b).1 = k then (k, v) else (a, b)) = (a, b) from if_neg h]
      simp [dictGet, Ne.symm h, ih]

theorem dictGet_append (m m' : List (String × α)) (k : String) :
    dictGet (m ++ m') k = orOpt (dictGet m k) (dictGet m' k) := by
  induction m with
  | nil => simp [dictGet, orOpt]
  | cons p t ih =>
    obtain ⟨a, b⟩ := p
    by_cases h : k = a <;> simp [dictGet, orOpt, h, ih]

theorem dictGet_dictSet_self (m : List (String × α)) (k : String) (v : α) :
    dictGet (dictSet m k v) k = some v := by
  unfold dictSet
  by_cases h : (dictGet m k).isSome
  · simp [h, dictGet_map_set]
  · simp only [h, Bool.false_eq_true, if_false]
    rw [dictGet_append]
    simp only [Option.not_isSome_iff_eq_none] at h
    simp [h, dictGet, orOpt]

end BasicLemmas

end Emulation

namespace Emulation

section ClaimC7

/-- C7 (corrected): toggling a setting twice does not in general return it to
its original value — the stored string `on` comes back as the boolean
`True`, since `toggleSetting` stores `config.get(setting, True) == False`. -/
theorem toggleSetting_roundtrip_cex :
    dictGet worldStrSetting.config "auto" = some (.vStr "on") ∧
    dictGet (toggleSetting (toggleSetting worldStrSetting "auto").1 "auto").1.config
        "auto" = some (.vBool true) ∧
    Value.vBool true ≠ Value.vStr "on" := by
  decide

/-- C7 (amended): for a boolean stored value, `toggleSetting` flips it and
returns the new value, and toggling twice restores the original; an absent
value is treated as `True` before the toggle, so the first toggle stores and
returns `False`. A non-boolean stored value is replaced by a boolean on the
first toggle, so the round trip need not restore it (the counterexample's
string comes back as `True`). -/
theorem toggleSetting_bool_roundtrip (w : WorldState) (s : String) :
    (∀ b : Bool, dictGet w.config s = some (.vBool b) →
      (toggleSetting w s).2 = !b ∧
      dictGet (toggleSetting w s).1.config s = some (.vBool (!b)) ∧
      dictGet (toggleSetting (toggleSetting w s).1 s).1.config s =
        some (.vBool b)) ∧
    (dictGet w.config s = none →
      (toggleSetting w s).2 = false ∧
      dictGet (toggleSetting w s).1.config s = some (.vBool false)) ∧
    (toggleSetting w s).2 =
      pyEq (configGet w.config s (.vBool true)) (.vBool false) := by
  have hval : ∀ w' : WorldState, (toggleSetting w' s).2 =
      pyEq (configGet w'.config s (.vBool true)) (.vBool false) := fun _ => rfl
  have hcfg : ∀ w' : WorldState, (toggleSetting w' s).1.config =
      dictSet w'.config s (.vBool (toggleSetting w' s).2) := fun _ => rfl
  refine ⟨?_, ?_, rfl⟩
  · intro b hb
    have h1 : (toggleSetting w s).2 = !b := by
      rw [hval]
      unfold configGet
      rw [hb]
      cases b <;> rfl
    have h2 : dictGet (toggleSetting w s).1.config s = some (.vBool (!b)) := by
      rw [hcfg, h1, dictGet_dictSet_self]
    have h3 : (toggleSetting (toggleSetting w s).1 s).2 = b := by
      rw [hval]
      unfold configGet
      rw [h2]
      cases b <;> rfl
    refine ⟨h1, h2, ?_⟩
    rw [hcfg, h3, dictGet_dictSet_self]
  · intro hb
    have h1 : (toggleSetting w s).2 = false := by
      rw [hval]
      unfold configGet
      rw [hb]
      rfl
    refine ⟨h1, ?_⟩
    rw [hcfg, h1, dictGet_dictSet_self]

/-- Witness for C7's amended theorem, at a stored `False` and at an absent
setting. -/
theorem toggleSetting_bool_roundtrip_witness :
    ((toggleSetting worldBoolSetting "brief").2 = true ∧
      dictGet (toggleSetting worldBoolSetting "brief").1.config "brief" =
        some (.vBool true) ∧
      dictGet (toggleSetting (toggleSetting worldBoolSetting "brief").1
          "brief").1.config "brief" = some (.vBool false)) ∧
    ((toggleSetting worldNoExits "brief").2 = false ∧
      dictGet (toggleSetting worldNoExits "brief").1.config "brief" =
        some (.vBool false)) :=
  ⟨(toggleSetting_bool_roundtrip worldBoolSetting "brief").1 false (by decide),
   (toggleSetting_bool_roundtrip worldNoExits "brief").2.1 (by decide)⟩

end ClaimC7

section ClaimC10

/-- C10 (corrected): the new value after a toggle is not `True` only when the
previous value was exactly `False` — a stored number `0` also toggles to
`True`, since Python's `==` identifies `0` and `False`. -/
theorem toggleSetting_exact_false_cex :
    dictGet worldZeroSetting.config "x" = some (.vNum 0) ∧
    Value.vNum 0 ≠ Value.vBool false ∧
    (toggleSetting worldZeroSetting "x").2 = true ∧
    dictGet (toggleSetting worldZeroSetting "x").1.config "x" =
      some (.vBool true) := by
  decide

/-- C10 (amended): after any toggle the stored value is a boolean, equal to
the returned one; the new value is `True` exactly when the previous value
(absent defaulting to `True`) compares equal to `False` under Python's `==`,
i.e. is `False` or the number `0`. -/
theorem toggleSetting_stores_bool (w : WorldState) (s : String) :
    dictGet (toggleSetting w s).1.config s =
      some (.vBool (toggleSetting w s).2) ∧
    (toggleSetting w s).2 =
      pyEq (configGet w.config s (.vBool true)) (.vBool false) ∧
    ∀ v : Value, pyEq v (.vBool false) = true ↔ v = .vBool false ∨ v = .vNum 0 := by
  refine ⟨dictGet_dictSet_self w.config s _, rfl, ?_⟩
  intro v
  cases v with
  | vBool b => cases b <;> simp [pyEq]
  | vNum n => simp [pyEq]
  | vStr t => simp [pyEq]

end ClaimC10

end Emulation

namespace Emulation

section ClaimC5

/-- C5 (corrected): on a room with no exits the `exits` command does not
output the single line `Exits: None!` — `longExits` makes two separate
output calls, so the emitted lines are `Exits:` followed by `None!`. -/
theorem longExits_empty_cex :
    roomNoExits.exits = [] ∧
    (longExits worldNoExits).outputLog = ["Exits:", "None!"] ∧
    ["Exits:", "None!"] ≠ ["Exits: None!"] := by
  decide

/-- C5 (amended): on a current room with no exits the room render's exits
line is exactly `Exits: None!` with no doors line, while the `exits` command
emits `Exits:` and `None!` as two separate lines (and nothing else). -/
theorem look_longExits_empty (w : WorldState) (h : w.currentRoom.exits = []) :
    lookExitsLine w.rooms w.currentRoom.exits = "Exits: None!" ∧
    lookDoorList w.currentRoom.exits = [] ∧
    (longExits w).outputLog = w.outputLog ++ ["Exits:", "None!"] := by
  rw [h]
  refine ⟨rfl, rfl, ?_⟩
  unfold longExits
  dsimp only [output]
  rw [h]
  have e1 : emitLines "Exits:" = ["Exits:"] := by decide
  have e2 : emitLines "None!" = ["None!"] := by decide
  simp [output, e1, e2]

/-- Witness for C5's amended theorem, on the empty-exits fixture world. -/
theorem look_longExits_empty_witness :
    lookExitsLine worldNoExits.rooms worldNoExits.currentRoom.exits =
      "Exits: None!" ∧
    lookDoorList worldNoExits.currentRoom.exits = [] ∧
    (longExits worldNoExits).outputLog =
      worldNoExits.outputLog ++ ["Exits:", "None!"] :=
  look_longExits_empty worldNoExits (by decide)

end ClaimC5

section ClaimC9

theorem name_terrain_ne_death (a b : String) : a ++ ", " ++ b ≠ "death" := by
  intro h
  have hm : ',' ∈ (a ++ ", " ++ b).data := by
    rw [String.data_append, String.data_append]
    simp only [List.mem_append]
    left; right
    decide
  rw [h] at hm
  simp at hm

/-- C9 (confirmed): in the `exits` listing the destination is described by
the destination room's name and terrain exactly when the destination string
is all digits and a known room, by `death` exactly when it is the `death`
sentinel, and by `undefined` in every other case (including the `undefined`
sentinel and digit strings absent from the room graph). -/
theorem longExits_destination (rooms : List (String × Room)) (dst : String) :
    (∀ r : Room, pyIsdigit dst = true → dictGet rooms dst = some r →
      longExitDest rooms dst = r.name ++ ", " ++ r.terrain) ∧
    (dst = "death" → longExitDest rooms dst = "death") ∧
    (dst ≠ "death" → (pyIsdigit dst = false ∨ dictGet rooms dst = none) →
      longExitDest rooms dst = "undefined") ∧
    (dst ≠ "death" → longExitDest rooms dst ≠ "death") := by
  refine ⟨?_, ?_, ?_, ?_⟩
  · intro r hdig hget
    unfold longExitDest
    rw [hget]
    simp [hdig]
  · intro hd
    subst hd
    unfold longExitDest
    have : pyIsdigit "death" = false := by decide
    cases hget : dictGet rooms "death" <;> simp [this]
  · intro hd hcase
    unfold longExitDest
    cases hget : dictGet rooms dst with
    | none => simp [hd]
    | some r =>
      rcases hcase with hdig | hnone
      · simp [hdig, hd]
      · rw [hget] at hnone
        exact absurd hnone (by simp)
  · intro hd
    unfold longExitDest
    cases hget : dictGet rooms dst with
    | none => simp [hd]
    | some r =>
      by_cases hdig : pyIsdigit dst = true
      · simp only [hdig, if_true]
        exact name_terrain_ne_death r.name r.terrain
      · simp [hdig, hd]

/-- Witness for C9's theorem: a digit destination present in the graph, the
`death` sentinel, and a digit destination absent from the graph. -/
theorem longExits_destination_witness :
    longExitDest [("3", roomRoad)] "3" = "Old road, road" ∧
    longExitDest [("3", roomRoad)] "death" = "death" ∧
    longExitDest [("3", roomRoad)] "7" = "undefined" ∧
    longExitDest [("3", roomRoad)] "undefined" ≠ "death" :=
  ⟨(longExits_destination [("3", roomRoad)] "3").1 roomRoad (by decide) (by decide),
   (longExits_destination [("3", roomRoad)] "death").2.1 rfl,
   (longExits_destination [("3", roomRoad)] "7").2.2.1 (by decide)
     (Or.inr (by decide)),
   (longExits_destination [("3", roomRoad)] "undefined").2.2.2 (by decide)⟩

end ClaimC9

end Emulation

namespace Emulation

section ClaimC2

/-- C2 (confirmed): the exits-line token of every exit composes exactly as
the spec's §4.3 precedence describes (`exitTokenSpec`), every exit with a
door contributes the doors-line entry `direction: doorname` (literal `exit`
when nameless), and in the two road scenarios a visible unnamed door renders
as `=(north)=` (doors entry `north: exit`) and a hidden one as `=[north]=`. -/
theorem exit_symbol_precedence :
    (∀ (rooms : List (String × Room)) (direction : String) (e : Exit),
      exitToken rooms direction e = exitTokenSpec rooms direction e) ∧
    (∀ (direction : String) (e : Exit),
      (e.door ≠ "" ∨ e.exitFlags.contains "door" = true) →
      doorEntry direction e =
        some (direction ++ ": " ++ (if e.door ≠ "" then e.door else "exit"))) ∧
    exitToken [("3", roomRoad)] "north" exitVisibleDoor = "=(north)=" ∧
    doorEntry "north" exitVisibleDoor = some "north: exit" ∧
    exitToken [("3", roomRoad)] "north" exitHiddenDoor = "=[north]=" := by
  refine ⟨?_, ?_, by decide, by decide, by decide⟩
  · intro rooms direction e
    unfold exitToken exitTokenSpec
    cases hhid : e.doorFlags.contains "hidden" <;>
      by_cases ht : e.«to» = "death" <;>
        cases hl : dictGet rooms e.«to» <;>
          by_cases hu : e.«to» = "undefined" <;>
            simp [hhid, ht, hl, hu]
  · intro direction e h
    unfold doorEntry
    split
    · rfl
    · next hcond =>
      exfalso
      rcases h with h | h
      · simp [h] at hcond
      · simp at hcond
        exact hcond.2 (List.mem_of_elem_eq_true h)

/-- Witness for C2's theorem: the doors-entry clause at a named door and at
a nameless one carrying the `door` flag. -/
theorem exit_symbol_precedence_witness :
    doorEntry "east" exitNamedDoor = some "east: gate" ∧
    doorEntry "west" exitVisibleDoor = some "west: exit" :=
  ⟨(exit_symbol_precedence.2.1 "east" exitNamedDoor
      (Or.inl (by decide))).trans (by decide),
   (exit_symbol_precedence.2.1 "west" exitVisibleDoor
      (Or.inr (by decide))).trans (by decide)⟩

end ClaimC2

section ClaimC4

/-- C4 (confirmed): moving in a direction the current room has no exit for
emits only `Alas, you cannot go that way!` and leaves the current room and
the configuration (hence `last_vnum`) unchanged. -/
theorem move_no_exit (w : WorldState) (d : String)
    (h1 : DIRECTIONS.contains d = true)
    (h2 : dictGet w.currentRoom.exits d = none) :
    move w d = output w "Alas, you cannot go that way!" ∧
    (move w d).currentRoom = w.currentRoom ∧
    (move w d).config = w.config ∧
    (move w d).outputLog = w.outputLog ++ ["Alas, you cannot go that way!"] := by
  have hmv : move w d = output w "Alas, you cannot go that way!" := by
    have hmem : d ∈ DIRECTIONS := List.mem_of_elem_eq_true h1
    unfold move
    simp [hmem, h2]
  have hlines : emitLines "Alas, you cannot go that way!" =
      ["Alas, you cannot go that way!"] := by decide
  refine ⟨hmv, ?_, ?_, ?_⟩ <;> rw [hmv]
  · rfl
  · rfl
  · rw [output_outputLog, hlines]

/-- Witness for C4's theorem: a north move from the exitless fixture room. -/
theorem move_no_exit_witness :
    move worldNoExits "north" =
      output worldNoExits "Alas, you cannot go that way!" ∧
    (move worldNoExits "north").currentRoom = worldNoExits.currentRoom ∧
    (move worldNoExits "north").config = worldNoExits.config ∧
    (move worldNoExits "north").outputLog =
      worldNoExits.outputLog ++ ["Alas, you cannot go that way!"] :=
  move_no_exit worldNoExits "north" (by decide) (by decide)

end ClaimC4

end Emulation

namespace Emulation

section ClaimC1

/-- An exit to the `undefined` sentinel. -/
def exitUndef : Exit := { «to» := "undefined", door := "", exitFlags := [], doorFlags := [] }

/-- An exit to the `death` sentinel. -/
def exitDeath : Exit := { «to» := "death", door := "", exitFlags := [], doorFlags := [] }

/-- An exit to vnum `9`, absent from the fixture room graph. -/
def exitUnknown : Exit := { «to» := "9", door := "", exitFlags := [], doorFlags := [] }

/-- An exit to vnum `7`, present in the fixture room graph. -/
def exitKnown : Exit := { «to» := "7", door := "", exitFlags := [], doorFlags := [] }

/-- Room `7`, a reachable destination. -/
def roomSeven : Room :=
  { vnum := "7", name := "Seven", desc := "", dynamicDesc := "",
    terrain := "city", note := "", exits := [] }

/-- A room with one exit of each destination kind. -/
def roomHub : Room :=
  { vnum := "2", name := "Hub", desc := "", dynamicDesc := "",
    terrain := "city", note := "",
    exits := [("north", exitUndef), ("south", exitDeath),
              ("east", exitUnknown), ("west", exitKnown)] }

/-- A world positioned in the hub room. -/
def worldHub : WorldState :=
  { rooms := [("2", roomHub), ("7", roomSeven)], labels := [], config := [],
    currentRoom := roomHub, outputLog := [] }

/-- C1 (confirmed): whenever `move`'s token resolves to a destination — via a
direction's exit, a label, or a digit string — the destination is handled in
order: `undefined` emits only its message and changes nothing, `death` emits
only its message and changes nothing, a vnum absent from the room graph emits
only an error message and changes nothing, and otherwise the current room
becomes the destination, `last_vnum` is set to it, and a full room render
(`look`) is performed. -/
theorem move_destination_handling (w : WorldState) (text vnum : String)
    (hres :
      (∃ e : Exit, DIRECTIONS.contains text = true ∧
        dictGet w.currentRoom.exits text = some e ∧ e.«to» = vnum) ∨
      (DIRECTIONS.contains text = false ∧ dictGet w.labels text = some vnum) ∨
      (DIRECTIONS.contains text = false ∧ dictGet w.labels text = none ∧
        pyIsdigit text = true ∧ text = vnum)) :
    move w text = moveToVnum w vnum ∧
    (vnum = "undefined" →
      move w text = output w "Undefined room in that direction!" ∧
      (move w text).currentRoom = w.currentRoom ∧
      (move w text).config = w.config ∧
      (move w text).outputLog =
        w.outputLog ++ ["Undefined room in that direction!"]) ∧
    (vnum = "death" →
      move w text = output w "Deathtrap in that direction!" ∧
      (move w text).currentRoom = w.currentRoom ∧
      (move w text).config = w.config ∧
      (move w text).outputLog =
        w.outputLog ++ ["Deathtrap in that direction!"]) ∧
    (vnum ≠ "undefined" → vnum ≠ "death" → dictGet w.rooms vnum = none →
      move w text =
        output w ("Error: no rooms in the database with vnum (" ++ vnum ++ ").") ∧
      (move w text).currentRoom = w.currentRoom ∧
      (move w text).config = w.config) ∧
    (∀ room : Room, vnum ≠ "undefined" → vnum ≠ "death" →
      dictGet w.rooms vnum = some room →
      move w text =
        look { w with currentRoom := room,
                      config := dictSet w.config "last_vnum" (.vStr vnum) } ∧
      (move w text).currentRoom = room ∧
      configGet (move w text).config "last_vnum" (.vStr "0") = .vStr vnum) := by
  have hlink : move w text = moveToVnum w vnum := by
    rcases hres with ⟨e, hc, he, hto⟩ | ⟨hc, hl⟩ | ⟨hc, hl, hd, hv⟩
    · have hmem : text ∈ DIRECTIONS := List.mem_of_elem_eq_true hc
      unfold move
      simp [hmem, he, hto]
    · have hmem : text ∉ DIRECTIONS := by
        intro hmem
        have h' : DIRECTIONS.contains text = true := List.elem_eq_true_of_mem hmem
        rw [h'] at hc
        simp at hc
      unfold move
      simp [hmem, hl]
    · subst hv
      have hmem : text ∉ DIRECTIONS := by
        intro hmem
        have h' : DIRECTIONS.contains text = true := List.elem_eq_true_of_mem hmem
        rw [h'] at hc
        simp at hc
      unfold move
      simp [hmem, hl, hd]
  refine ⟨hlink, ?_, ?_, ?_, ?_⟩
  · intro hu
    subst hu
    have hm2 : moveToVnum w "undefined" =
        output w "Undefined room in that direction!" := by
      unfold moveToVnum
      rw [if_pos rfl]
    rw [hlink, hm2]
    refine ⟨rfl, rfl, rfl, ?_⟩
    rw [output_outputLog]
    have he : emitLines "Undefined room in that direction!" =
        ["Undefined room in that direction!"] := by decide
    rw [he]
  · intro hd
    subst hd
    have hm2 : moveToVnum w "death" =
        output w "Deathtrap in that direction!" := by
      unfold moveToVnum
      rw [if_neg (by decide), if_pos rfl]
    rw [hlink, hm2]
    refine ⟨rfl, rfl, rfl, ?_⟩
    rw [output_outputLog]
    have he : emitLines "Deathtrap in that direction!" =
        ["Deathtrap in that direction!"] := by decide
    rw [he]
  · intro hu hd hn
    have hm2 : moveToVnum w vnum =
        output w ("Error: no rooms in the database with vnum (" ++ vnum ++ ").") := by
      unfold moveToVnum
      rw [if_neg hu, if_neg hd]
      simp only [hn]
    rw [hlink, hm2]
    exact ⟨rfl, rfl, rfl⟩
  · intro room hu hd hr
    have hm2 : moveToVnum w vnum =
        look { w with currentRoom := room,
                      config := dictSet w.config "last_vnum" (.vStr vnum) } := by
      unfold moveToVnum
      rw [if_neg hu, if_neg hd]
      simp only [hr]
    rw [hlink, hm2]
    refine ⟨rfl, ?_, ?_⟩
    · rw [look_currentRoom]
    · rw [look_config]
      unfold configGet
      rw [dictGet_dictSet_self]
      rfl

/-- Witness for C1's theorem: the four destination kinds of the hub room. -/
theorem move_destination_handling_witness :
    (move worldHub "north").currentRoom = worldHub.currentRoom ∧
    (move worldHub "north").outputLog =
      worldHub.outputLog ++ ["Undefined room in that direction!"] ∧
    (move worldHub "south").outputLog =
      worldHub.outputLog ++ ["Deathtrap in that direction!"] ∧
    (move worldHub "east").currentRoom = worldHub.currentRoom ∧
    (move worldHub "west").currentRoom = roomSeven :=
  ⟨((move_destination_handling worldHub "north" "undefined"
      (Or.inl ⟨exitUndef, by decide, by decide, rfl⟩)).2.1 rfl).2.1,
   ((move_destination_handling worldHub "north" "undefined"
      (Or.inl ⟨exitUndef, by decide, by decide, rfl⟩)).2.1 rfl).2.2.2,
   ((move_destination_handling worldHub "south" "death"
      (Or.inl ⟨exitDeath, by decide, by decide, rfl⟩)).2.2.1 rfl).2.2.2,
   ((move_destination_handling worldHub "east" "9"
      (Or.inl ⟨exitUnknown, by decide, by decide, rfl⟩)).2.2.2.1
      (by decide) (by decide) (by decide)).2.1,
   ((move_destination_handling worldHub "west" "7"
      (Or.inl ⟨exitKnown, by decide, by decide, rfl⟩)).2.2.2.2 roomSeven
      (by decide) (by decide) (by decide)).2.1⟩

end ClaimC1

end Emulation

namespace Emulation

section ClaimC6

/-- C6 (corrected): the initial current room is not always the room named by
a valid persisted `last_vnum` — the startup move goes through `move`, which
consults labels first, so a label whose name equals that vnum redirects the
start to the label's target room. -/
theorem startup_label_shadow_cex :
    dictGet worldLabelShadow.config "last_vnum" = some (.vStr "0") ∧
    dictGet worldLabelShadow.rooms "0" = some roomZero ∧
    (startup worldLabelShadow).currentRoom = roomFive ∧
    roomFive ≠ roomZero := by
  decide

/-- A digit string is never one of the direction names. -/
theorem isdigit_not_direction (s : String) (h : pyIsdigit s = true) :
    s ∉ DIRECTIONS := by
  intro hmem
  simp only [DIRECTIONS, List.mem_cons, List.not_mem_nil, or_false] at hmem
  rcases hmem with h1 | h1 | h1 | h1 | h1 | h1 <;>
    (subst h1; exact absurd h (by decide))

/-- C6 (amended): at startup the chosen vnum is the persisted `last_vnum`
when that identifier is a room of the graph and the lexicographically
smallest room identifier otherwise (in particular when `last_vnum` is
absent); provided that the chosen vnum is a digit string not bound as a
label, the initial current room is the chosen vnum's room and it is rendered
once (`look`). A label named like the chosen vnum redirects the start to the
label's target instead. -/
theorem startup_initial_room (w : WorldState) (room : Room)
    (hlab : dictGet w.labels (initialVnum w) = none)
    (hdig : pyIsdigit (initialVnum w) = true)
    (hroom : dictGet w.rooms (initialVnum w) = some room) :
    startup w =
      look { w with currentRoom := room,
                    config := dictSet w.config "last_vnum"
                      (.vStr (initialVnum w)) } ∧
    (startup w).currentRoom = room ∧
    (∀ s : String, configGet w.config "last_vnum" (.vStr "0") = .vStr s →
      (dictGet w.rooms s).isSome = true → initialVnum w = s) ∧
    (∀ s : String, configGet w.config "last_vnum" (.vStr "0") = .vStr s →
      (dictGet w.rooms s).isSome = false →
      initialVnum w = smallestVnum w.rooms) ∧
    (∀ n : Int, configGet w.config "last_vnum" (.vStr "0") = .vNum n →
      initialVnum w = smallestVnum w.rooms) := by
  have hv : initialVnum w ≠ "undefined" := by
    intro he
    rw [he] at hdig
    exact absurd hdig (by decide)
  have hd : initialVnum w ≠ "death" := by
    intro he
    rw [he] at hdig
    exact absurd hdig (by decide)
  have hnotdir : initialVnum w ∉ DIRECTIONS := isdigit_not_direction _ hdig
  have hstart1 : startup w = moveToVnum w (initialVnum w) := by
    unfold startup move
    simp [hnotdir, hlab, hdig]
  have hstart : startup w =
      look { w with currentRoom := room,
                    config := dictSet w.config "last_vnum"
                      (.vStr (initialVnum w)) } := by
    rw [hstart1]
    unfold moveToVnum
    rw [if_neg hv, if_neg hd]
    simp only [hroom]
  refine ⟨hstart, ?_, ?_, ?_, ?_⟩
  · rw [hstart, look_currentRoom]
  · intro s hcfg hsome
    unfold initialVnum
    rw [hcfg]
    simp [hsome]
  · intro s hcfg hsome
    unfold initialVnum
    rw [hcfg]
    simp [hsome]
  · intro n hcfg
    unfold initialVnum
    rw [hcfg]

/-- Witness for C6's amended theorem: a fresh world with no settings starts
at its lexicographically smallest room. -/
theorem startup_initial_room_witness :
    startup worldHub =
      look { worldHub with currentRoom := roomHub,
                           config := dictSet worldHub.config "last_vnum"
                             (.vStr "2") } ∧
    (startup worldHub).currentRoom = roomHub :=
  have h := startup_initial_room worldHub roomHub (by decide) (by decide)
    (by decide)
  ⟨h.1, h.2.1⟩

end ClaimC6

end Emulation

namespace Emulation

section ClaimC8

end ClaimC8

end Emulation

namespace Emulation

section ClaimC3

theorem join_singleton (s : String) : String.join [s] = s := by
  cases s
  rfl

/-- Among the direction names (whose first characters are pairwise distinct)
at most one can have a given non-empty prefix, so the joined candidate is
that single direction. -/
theorem directionCandidate_spec (p : String) (hp : p ≠ "")
    (hm : ∃ d ∈ DIRECTIONS, pyStartsWith d p = true) :
    ∃ d₀, DIRECTIONS.filter (fun d => pyStartsWith d p) = [d₀] ∧
      d₀ ∈ DIRECTIONS ∧ directionCandidate p = d₀ := by
  obtain ⟨d, hdmem, hdsw⟩ := hm
  cases hpd : p.data with
  | nil =>
    exfalso
    apply hp
    cases p
    rw [show "" = String.mk [] from rfl]
    exact congrArg String.mk hpd
  | cons c cs =>
  have key : ∀ (d : String) (x : Char) (xs : List Char), d.data = x :: xs →
      c ≠ x → pyStartsWith d p = false := by
    intro d x xs hd hne
    unfold pyStartsWith
    rw [hpd, hd]
    show (c == x && List.isPrefixOf cs xs) = false
    rw [beq_eq_false_iff_ne.mpr hne, Bool.false_and]
  have key2 : ∀ (d : String) (x : Char) (xs : List Char), d.data = x :: xs →
      c = x → pyStartsWith d p = List.isPrefixOf cs xs := by
    intro d x xs hd he
    unfold pyStartsWith
    rw [hpd, hd]
    show (c == x && List.isPrefixOf cs xs) = _
    rw [beq_iff_eq.mpr he, Bool.true_and]
  by_cases hc1 : c = 'n'
  · subst hc1
    have ht : pyStartsWith "north" p = List.isPrefixOf cs ['o','r','t','h'] :=
      key2 "north" 'n' ['o','r','t','h'] rfl rfl
    have hf_south : pyStartsWith "south" p = false := key "south" 's' ['o','u','t','h'] rfl (by decide)
    have hf_east : pyStartsWith "east" p = false := key "east" 'e' ['a','s','t'] rfl (by decide)
    have hf_west : pyStartsWith "west" p = false := key "west" 'w' ['e','s','t'] rfl (by decide)
    have hf_up : pyStartsWith "up" p = false := key "up" 'u' ['p'] rfl (by decide)
    have hf_down : pyStartsWith "down" p = false := key "down" 'd' ['o','w','n'] rfl (by decide)
    cases hpre : List.isPrefixOf cs ['o','r','t','h'] with
    | false =>
      exfalso
      simp only [DIRECTIONS, List.mem_cons, List.not_mem_nil, or_false] at hdmem
      rcases hdmem with rfl | rfl | rfl | rfl | rfl | rfl <;>
        simp_all
    | true =>
      have hfilter : DIRECTIONS.filter (fun d => pyStartsWith d p) = ["north"] := by
        simp [DIRECTIONS, List.filter_cons, ht, hpre, hf_south, hf_east, hf_west, hf_up, hf_down]
      refine ⟨"north", hfilter, by simp [DIRECTIONS], ?_⟩
      unfold directionCandidate
      rw [hfilter]
      exact join_singleton "north"
  by_cases hc2 : c = 's'
  · subst hc2
    have ht : pyStartsWith "south" p = List.isPrefixOf cs ['o','u','t','h'] :=
      key2 "south" 's' ['o','u','t','h'] rfl rfl
    have hf_north : pyStartsWith "north" p = false := key "north" 'n' ['o','r','t','h'] rfl (by decide)
    have hf_east : pyStartsWith "east" p = false := key "east" 'e' ['a','s','t'] rfl (by decide)
    have hf_west : pyStartsWith "west" p = false := key "west" 'w' ['e','s','t'] rfl (by decide)
    have hf_up : pyStartsWith "up" p = false := key "up" 'u' ['p'] rfl (by decide)
    have hf_down : pyStartsWith "down" p = false := key "down" 'd' ['o','w','n'] rfl (by decide)
    cases hpre : List.isPrefixOf cs ['o','u','t','h'] with
    | false =>
      exfalso
      simp only [DIRECTIONS, List.mem_cons, List.not_mem_nil, or_false] at hdmem
      rcases hdmem with rfl | rfl | rfl | rfl | rfl | rfl <;>
        simp_all
    | true =>
      have hfilter : DIRECTIONS.filter (fun d => pyStartsWith d p) = ["south"] := by
        simp [DIRECTIONS, List.filter_cons, ht, hpre, hf_north, hf_east, hf_west, hf_up, hf_down]
      refine ⟨"south", hfilter, by simp [DIRECTIONS], ?_⟩
      unfold directionCandidate
      rw [hfilter]
      exact join_singleton "south"
  by_cases hc3 : c = 'e'
  · subst hc3
    have ht : pyStartsWith "east" p = List.isPrefixOf cs ['a','s','t'] :=
      key2 "east" 'e' ['a','s','t'] rfl rfl
    have hf_north : pyStartsWith "north" p = false := key "north" 'n' ['o','r','t','h'] rfl (by decide)
    have hf_south : pyStartsWith "south" p = false := key "south" 's' ['o','u','t','h'] rfl (by decide)
    have hf_west : pyStartsWith "west" p = false := key "west" 'w' ['e','s','t'] rfl (by decide)
    have hf_up : pyStartsWith "up" p = false := key "up" 'u' ['p'] rfl (by decide)
    have hf_down : pyStartsWith "down" p = false := key "down" 'd' ['o','w','n'] rfl (by decide)
    cases hpre : List.isPrefixOf cs ['a','s','t'] with
    | false =>
      exfalso
      simp only [DIRECTIONS, List.mem_cons, List.not_mem_nil, or_false] at hdmem
      rcases hdmem with rfl | rfl | rfl | rfl | rfl | rfl <;>
        simp_all
    | true =>
      have hfilter : DIRECTIONS.filter (fun d => pyStartsWith d p) = ["east"] := by
        simp [DIRECTIONS, List.filter_cons, ht, hpre, hf_north, hf_south, hf_west, hf_up, hf_down]
      refine ⟨"east", hfilter, by simp [DIRECTIONS], ?_⟩
      unfold directionCandidate
      rw [hfilter]
      exact join_singleton "east"
  by_cases hc4 : c = 'w'
  · subst hc4
    have ht : pyStartsWith "west" p = List.isPrefixOf cs ['e','s','t'] :=
      key2 "west" 'w' ['e','s','t'] rfl rfl
    have hf_north : pyStartsWith "north" p = false := key "north" 'n' ['o','r','t','h'] rfl (by decide)
    have hf_south : pyStartsWith "south" p = false := key "south" 's' ['o','u','t','h'] rfl (by decide)
    have hf_east : pyStartsWith "east" p = false := key "east" 'e' ['a','s','t'] rfl (by decide)
    have hf_up : pyStartsWith "up" p = false := key "up" 'u' ['p'] rfl (by decide)
    have hf_down : pyStartsWith "down" p = false := key "down" 'd' ['o','w','n'] rfl (by decide)
    cases hpre : List.isPrefixOf cs ['e','s','t'] with
    | false =>
      exfalso
      simp only [DIRECTIONS, List.mem_cons, List.not_mem_nil, or_false] at hdmem
      rcases hdmem with rfl | rfl | rfl | rfl | rfl | rfl <;>
        simp_all
    | true =>
      have hfilter : DIRECTIONS.filter (fun d => pyStartsWith d p) = ["west"] := by
        simp [DIRECTIONS, List.filter_cons, ht, hpre, hf_north, hf_south, hf_east, hf_up, hf_down]
      refine ⟨"west", hfilter, by simp [DIRECTIONS], ?_⟩
      unfold directionCandidate
      rw [hfilter]
      exact join_singleton "west"
  by_cases hc5 : c = 'u'
  · subst hc5
    have ht : pyStartsWith "up" p = List.isPrefixOf cs ['p'] :=
      key2 "up" 'u' ['p'] rfl rfl
    have hf_north : pyStartsWith "north" p = false := key "north" 'n' ['o','r','t','h'] rfl (by decide)
    have hf_south : pyStartsWith "south" p = false := key "south" 's' ['o','u','t','h'] rfl (by decide)
    have hf_east : pyStartsWith "east" p = false := key "east" 'e' ['a','s','t'] rfl (by decide)
    have hf_west : pyStartsWith "west" p = false := key "west" 'w' ['e','s','t'] rfl (by decide)
    have hf_down : pyStartsWith "down" p = false := key "down" 'd' ['o','w','n'] rfl (by decide)
    cases hpre : List.isPrefixOf cs ['p'] with
    | false =>
      exfalso
      simp only [DIRECTIONS, List.mem_cons, List.not_mem_nil, or_false] at hdmem
      rcases hdmem with rfl | rfl | rfl | rfl | rfl | rfl <;>
        simp_all
    | true =>
      have hfilter : DIRECTIONS.filter (fun d => pyStartsWith d p) = ["up"] := by
        simp [DIRECTIONS, List.filter_cons, ht, hpre, hf_north, hf_south, hf_east, hf_west, hf_down]
      refine ⟨"up", hfilter, by simp [DIRECTIONS], ?_⟩
      unfold directionCandidate
      rw [hfilter]
      exact join_singleton "up"
  by_cases hc6 : c = 'd'
  · subst hc6
    have ht : pyStartsWith "down" p = List.isPrefixOf cs ['o','w','n'] :=
      key2 "down" 'd' ['o','w','n'] rfl rfl
    have hf_north : pyStartsWith "north" p = false := key "north" 'n' ['o','r','t','h'] rfl (by decide)
    have hf_south : pyStartsWith "south" p = false := key "south" 's' ['o','u','t','h'] rfl (by decide)
    have hf_east : pyStartsWith "east" p = false := key "east" 'e' ['a','s','t'] rfl (by decide)
    have hf_west : pyStartsWith "west" p = false := key "west" 'w' ['e','s','t'] rfl (by decide)
    have hf_up : pyStartsWith "up" p = false := key "up" 'u' ['p'] rfl (by decide)
    cases hpre : List.isPrefixOf cs ['o','w','n'] with
    | false =>
      exfalso
      simp only [DIRECTIONS, List.mem_cons, List.not_mem_nil, or_false] at hdmem
      rcases hdmem with rfl | rfl | rfl | rfl | rfl | rfl <;>
        simp_all
    | true =>
      have hfilter : DIRECTIONS.filter (fun d => pyStartsWith d p) = ["down"] := by
        simp [DIRECTIONS, List.filter_cons, ht, hpre, hf_north, hf_south, hf_east, hf_west, hf_up]
      refine ⟨"down", hfilter, by simp [DIRECTIONS], ?_⟩
      unfold directionCandidate
      rw [hfilter]
      exact join_singleton "down"
  exfalso
  simp only [DIRECTIONS, List.mem_cons, List.not_mem_nil, or_false] at hdmem
  rcases hdmem with rfl | rfl | rfl | rfl | rfl | rfl
  · rw [key "north" 'n' ['o','r','t','h'] rfl hc1] at hdsw; exact Bool.false_ne_true hdsw
  · rw [key "south" 's' ['o','u','t','h'] rfl hc2] at hdsw; exact Bool.false_ne_true hdsw
  · rw [key "east" 'e' ['a','s','t'] rfl hc3] at hdsw; exact Bool.false_ne_true hdsw
  · rw [key "west" 'w' ['e','s','t'] rfl hc4] at hdsw; exact Bool.false_ne_true hdsw
  · rw [key "up" 'u' ['p'] rfl hc5] at hdsw; exact Bool.false_ne_true hdsw
  · rw [key "down" 'd' ['o','w','n'] rfl hc6] at hdsw; exact Bool.false_ne_true hdsw


/-- C3 (confirmed): an input line whose command token is a non-empty prefix
of at least one direction name dispatches `move` on a single valid direction
— the one direction matching the prefix, which is also the first match in
canonical order, never a concatenation of several names (no two direction
names share a non-empty prefix). -/
theorem parseInput_direction_dispatch (w : WorldState) (input : String)
    (h1 : commandToken input ≠ "")
    (h2 : ∃ d ∈ DIRECTIONS, pyStartsWith d (commandToken input) = true) :
    ∃ d₀, DIRECTIONS.filter (fun d => pyStartsWith d (commandToken input)) =
        [d₀] ∧
      d₀ ∈ DIRECTIONS ∧ directionCandidate (commandToken input) = d₀ ∧
      parseInputDir w input = some (move w d₀) := by
  obtain ⟨d₀, hf, hmem, hcand⟩ :=
    directionCandidate_spec (commandToken input) h1 h2
  refine ⟨d₀, hf, hmem, hcand, ?_⟩
  have hne : d₀ ≠ "" := by
    simp only [DIRECTIONS, List.mem_cons, List.not_mem_nil, or_false] at hmem
    rcases hmem with rfl | rfl | rfl | rfl | rfl | rfl <;> decide
  unfold parseInputDir
  rw [hcand]
  simp [hne]

/-- Witness for C3's theorem: the abbreviated command `no` dispatches a move
north. -/
theorem parseInput_direction_dispatch_witness :
    ∃ d₀, DIRECTIONS.filter (fun d => pyStartsWith d (commandToken "no")) =
        [d₀] ∧
      d₀ ∈ DIRECTIONS ∧ directionCandidate (commandToken "no") = d₀ ∧
      parseInputDir worldNoExits "no" = some (move worldNoExits d₀) :=
  parseInput_direction_dispatch worldNoExits "no" (by decide)
    ⟨"north", by decide, by decide⟩

end ClaimC3

end Emulation
